import Mathlib

/-!
Shallow embedding of the quiz-session core of the ppt-study-assistant
repository: the duck-typed question dicts produced by
src/modules/generator.py, the Streamlit session state mutated by the quiz
tab (src/components/quiz.py and the inline copy in src/app.py), the quiz
generator's id re-assignment and fallback, the feedback generator, and the
JSON-cleaning scan clean_json_response.
-/

namespace PPT

/-- Value stored under the "answer" key of a question dict: an integer
index for multiple_choice, a string for text questions.  The key may also
be absent, modelled by wrapping in Option at the use site. -/
inductive AnswerVal
| ofInt (n : Int)
| ofStr (s : String)
deriving DecidableEq

/-- A question dict as emitted by generate_quizzes / get_fallback_quizzes.
Optional fields model keys that may be absent from the dict. -/
structure Question where
  id : Nat
  qtype : Option String
  question : String
  options : List String
  answer : Option AnswerVal
  source_slide : Option Nat
  explanation : String
deriving DecidableEq

/-- One stage dict of the quiz set: {"stage": ..., "questions": [...]}. -/
structure Stage where
  stage : String
  questions : List Question
deriving DecidableEq

/-- A value recorded in st.session_state.quiz_answers: the clicked option
index for multiple_choice, the typed text for short_answer. -/
inductive Ans
| idx (i : Nat)
| txt (t : String)
deriving DecidableEq

/-- An entry of st.session_state.wrong_answers (quiz.py lines 110-114 and
136-140): question dict, user answer text, correct answer text. -/
structure WrongEntry where
  question : Question
  user_answer : String
  correct_answer : String
deriving DecidableEq

/-- One weak-area record of the feedback value. -/
structure WeakArea where
  area : String
  description : String
  related_slides : List Nat
deriving DecidableEq

/-- The feedback dict returned by generate_feedback. -/
structure Feedback where
  analysis : String
  weak_areas : List WeakArea
  recommendations : List String
deriving DecidableEq

/-- The session-state fields of app.py that the quiz workflow touches:
quizzes, quiz_answers (dict modelled as an association list keyed by
question id; keys are never overwritten because every write is guarded by
an absence check), wrong_answers, current_quiz_stage, feedback. -/
structure SessionState where
  quizzes : List Stage
  quiz_answers : List (Nat × Ans)
  wrong_answers : List WrongEntry
  current_quiz_stage : Nat
  feedback : Option Feedback
deriving DecidableEq

/-- Dict lookup st.session_state.quiz_answers.get(qid). -/
def lookupAnswer (m : List (Nat × Ans)) (qid : Nat) : Option Ans :=
  (m.find? (fun p => p.1 == qid)).map (fun p => p.2)

/-- q.get("type", "short_answer") from quiz.py line 67 / app.py line 475. -/
def qTypeOf (q : Question) : String := q.qtype.getD "short_answer"

/-- Python list indexing l[i] with negative-index support: raises
IndexError (None here) only when i is at or beyond either end. -/
def pyListGet (l : List String) (i : Int) : Option String :=
  if 0 ≤ i then l[i.toNat]?
  else if 0 ≤ i + l.length then l[(i + l.length).toNat]?
  else none

/-- The value q.get("answer", 0) as used for indexing options in
quiz.py line 113 / app.py line 499: absent key defaults to 0; an integer
answer is used as the index; a string answer would raise TypeError when
used as a list index (modelled as none). -/
def mcIndexVal : Option AnswerVal → Option Int
| none => some 0
| some (.ofInt n) => some n
| some (.ofStr _) => none

/-- Result of a submission attempt through the quiz tab.  correct /
incorrect are the grading outcomes; alreadyAnswered models the UI showing
the disabled result view instead of input widgets once the id has an
entry; noOptions models the early return for an options-less
multiple_choice question; indexError / typeError model the uncaught
Python exceptions raised while building the wrong-answer entry. -/
inductive SubmitOutcome
| correct
| incorrect
| alreadyAnswered
| noOptions
| indexError
| typeError
deriving DecidableEq

/-- Embedding of a click on option button i of a multiple_choice question
(_render_multiple_choice, quiz.py lines 88-115; identical inline code in
app.py lines 477-500).  Guard order follows the source: empty options
return early; an existing quiz_answers entry disables the buttons; the
click records the index, then compares i with q.get("answer"), and on
mismatch appends the wrong-answer entry whose correct_answer is
options[q.get("answer", 0)] (an out-of-range index raises after the
answer record was already mutated). -/
def submitMC (q : Question) (i : Nat) (st : SessionState) :
    SubmitOutcome × SessionState :=
  if q.options = [] then (.noOptions, st)
  else if (lookupAnswer st.quiz_answers q.id).isSome then (.alreadyAnswered, st)
  else
    let st1 : SessionState :=
      { st with quiz_answers := st.quiz_answers ++ [(q.id, Ans.idx i)] }
    if q.answer = some (AnswerVal.ofInt (i : Int)) then (.correct, st1)
    else
      match mcIndexVal q.answer with
      | none => (.typeError, st1)
      | some k =>
        match pyListGet q.options k with
        | none => (.indexError, st1)
        | some c =>
          (.incorrect,
            { st1 with wrong_answers :=
                st1.wrong_answers ++ [⟨q, q.options.getD i "", c⟩] })

/-- Python whitespace characters stripped by str.strip(). -/
def isPySpace (c : Char) : Bool :=
  c == ' ' || c == '\t' || c == '\n' || c == '\r' || c == '\x0b' || c == '\x0c'

/-- str.strip() on a character list. -/
def pyStripChars (l : List Char) : List Char :=
  ((l.dropWhile isPySpace).reverse.dropWhile isPySpace).reverse

/-- str.strip() on strings. -/
def pyStrip (s : String) : String := String.mk (pyStripChars s.data)

/-- str.lower(), ASCII case folding. -/
def pyLower (s : String) : String := String.mk (s.data.map Char.toLower)

/-- The normalisation s.strip().lower() applied to both sides of the
short-answer comparison (quiz.py lines 123 and 135). -/
def normText (s : String) : String := pyLower (pyStrip s)

/-- The value q.get("answer", "") as used by the short-answer grading:
absent key defaults to ""; a string is used directly; an integer answer
would raise AttributeError at .strip() (modelled as none). -/
def saCorrectText : Option AnswerVal → Option String
| none => some ""
| some (.ofStr s) => some s
| some (.ofInt _) => none

/-- Embedding of the submit button of a short_answer question
(_render_short_answer, quiz.py lines 118-141; identical inline code in
app.py lines 502-525).  An existing quiz_answers entry replaces the input
with the result view; otherwise the text is recorded, then compared
case-insensitively after stripping, and on mismatch a wrong-answer entry
is appended. -/
def submitSA (q : Question) (t : String) (st : SessionState) :
    SubmitOutcome × SessionState :=
  if (lookupAnswer st.quiz_answers q.id).isSome then (.alreadyAnswered, st)
  else
    let st1 : SessionState :=
      { st with quiz_answers := st.quiz_answers ++ [(q.id, Ans.txt t)] }
    match saCorrectText q.answer with
    | none => (.typeError, st1)
    | some c =>
      if normText t = normText c then (.correct, st1)
      else
        (.incorrect,
          { st1 with wrong_answers := st1.wrong_answers ++ [⟨q, t, c⟩] })

/-- The quiz-tab render dispatch for a text submission (quiz.py lines
69-72): only the short_answer branch renders a text input; a
multiple_choice question renders buttons instead, and every other type
(fill_blank, essay, ...) renders no input widget at all, so no text can
be submitted and no grading happens (none). -/
def submitText (q : Question) (t : String) (st : SessionState) :
    Option (SubmitOutcome × SessionState) :=
  if qTypeOf q = "multiple_choice" then none
  else if qTypeOf q = "short_answer" then some (submitSA q t st)
  else none

/-- Outcome of pressing (or being unable to press) a navigation button. -/
inductive NavOutcome
| moved
| atFirstStage
| atFinalStage
deriving DecidableEq

/-- The fixed stage-label triple of quiz.py line 15 / app.py line 423. -/
def stageLabels : List String := ["기초다지기", "실력다지기", "심화학습"]

/-- Embedding of the previous-stage control (quiz.py lines 33-36): the
button is rendered only when current_stage > 0, and a click decrements
current_quiz_stage; at stage 0 the control is absent, which the spec
names the AtFirstStage signal. -/
def retreatStage (s : Nat) : NavOutcome × Nat :=
  if 0 < s then (.moved, s - 1) else (.atFirstStage, s)

/-- Embedding of the next-stage control (quiz.py lines 38-41): the button
is rendered only when current_stage < len(stages) - 1, and a click
increments current_quiz_stage; otherwise the control is absent, which the
spec names the AtFinalStage signal. -/
def advanceStage (s : Nat) : NavOutcome × Nat :=
  if s < stageLabels.length - 1 then (.moved, s + 1) else (.atFinalStage, s)

/-- Embedding of the retry button of the completion view (quiz.py lines
80-85 / app.py lines 534-538): stage to 0, answers and wrong answers and
feedback cleared; st.session_state.quizzes is not touched. -/
def resetSession (st : SessionState) : SessionState :=
  { st with
      current_quiz_stage := 0
      quiz_answers := []
      wrong_answers := []
      feedback := none }

/-- The sequential-id loop of generate_quizzes (generator.py lines
366-372) on one question list: question["id"] = question_id;
question_id += 1.  The counter is threaded explicitly. -/
def assignQuestionIds : Nat → List Question → List Question
| _, [] => []
| n, q :: qs => { q with id := n } :: assignQuestionIds (n + 1) qs

/-- The outer loop over stages; after a stage the counter has advanced by
the number of questions of that stage. -/
def assignStageIds : Nat → List Stage → List Stage
| _, [] => []
| n, s :: ss =>
  { s with questions := assignQuestionIds n s.questions } ::
    assignStageIds (n + s.questions.length) ss

/-- The id re-assignment applied to the parsed model output, starting the
counter at 1. -/
def assign_ids (stages : List Stage) : List Stage := assignStageIds 1 stages

/-- get_fallback_quizzes (generator.py lines 385-402): three stages, the
first holding the single generation-failed question, the other two
empty. -/
def get_fallback_quizzes : List Stage :=
  [ { stage := "기초다지기"
      questions :=
        [ { id := 1
            qtype := some "multiple_choice"
            question := "퀴즈 생성 중 오류가 발생했습니다. 다시 시도해주세요."
            options := ["옵션 1", "옵션 2", "옵션 3", "옵션 4"]
            answer := some (AnswerVal.ofInt 0)
            source_slide := some 1
            explanation := "퀴즈 생성 실패" } ] }
  , { stage := "실력다지기", questions := [] }
  , { stage := "심화학습", questions := [] } ]

/-- Result of generate_quizzes (generator.py lines 359-382) as a function
of the parsed model response: some stages when the transport and the JSON
parse succeeded (the ids are then re-assigned), none when either raised
(json.JSONDecodeError or any other exception), in which case the fixed
fallback quiz set is returned instead of propagating the exception. -/
def generate_quizzes_result : Option (List Stage) → List Stage
| some stages => assign_ids stages
| none => get_fallback_quizzes

/-- The question ids of a quiz set, across all stages in order. -/
def questionIds (stages : List Stage) : List Nat :=
  (stages.map (fun s => s.questions.map (fun q => q.id))).flatten

/-- Total number of questions of a quiz set. -/
def totalQuestions (ss : List Stage) : Nat :=
  (ss.map (fun s => s.questions.length)).sum

/-- generate_feedback (generator.py lines 405-470) as a function of the
ledger and of the model call's outcome (some parsed feedback on success,
none when the call or the JSON parse raised).  The Bool records whether
invoke_bedrock_direct was reached: the empty-ledger early return at lines
419-424 fires before any call; otherwise the call happens and a failure
is absorbed into the fixed degraded value of lines 464-470. -/
def generate_feedback (wrong_answers : List WrongEntry)
    (modelResult : Option Feedback) : Feedback × Bool :=
  if wrong_answers = [] then
    ({ analysis := "모든 문제를 맞추셨습니다! 훌륭합니다."
       weak_areas := []
       recommendations := [] }, false)
  else
    match modelResult with
    | some fb => (fb, true)
    | none =>
      ({ analysis := "피드백 생성 중 오류가 발생했습니다."
         weak_areas := []
         recommendations := ["오답 노트를 복습하세요.", "해당 슬라이드를 다시 확인하세요."] },
       true)

/-- text.startswith(p) on character lists. -/
def startsWithChars (p l : List Char) : Bool := decide (l.take p.length = p)

/-- The fence-stripping prelude of clean_json_response (generator.py
lines 23-35): strip, remove a leading seven-character json fence or a
plain three-character fence, remove a trailing fence, strip again. -/
def stripFences (l : List Char) : List Char :=
  let t0 := pyStripChars l
  let t1 :=
    if startsWithChars "```json".data t0 then t0.drop 7
    else if startsWithChars "```".data t0 then t0.drop 3
    else t0
  let t2 :=
    if startsWithChars "```".data.reverse t1.reverse then
      (t1.reverse.drop 3).reverse
    else t1
  pyStripChars t2

/-- A character opening a JSON value. -/
def isOpenBracket (c : Char) : Bool := c == '{' || c == '['

/-- end_char chosen from start_char (generator.py line 51). -/
def closeFor (c : Char) : Char := if c = '{' then '}' else ']'

/-- The start_idx search of generator.py lines 38-45: the suffix starting
at the first opening bracket, split into that bracket and the rest; none
models start_idx == -1. -/
def findBracketSuffix : List Char → Option (Char × List Char)
| [] => none
| c :: rest =>
  if isOpenBracket c then some (c, rest) else findBracketSuffix rest

/-- The bracket-counting loop of generator.py lines 53-62 on the suffix
that starts at the first bracket: count start_char up, end_char down, and
stop just after the position where the counter returns to zero; if it
never does, the whole remaining text is kept (end_idx stays len(text)). -/
def takeBalanced (sc ec : Char) : Int → List Char → List Char
| _, [] => []
| k, c :: rest =>
  if c = sc then c :: takeBalanced sc ec (k + 1) rest
  else if c = ec then
    if k - 1 = 0 then [c] else c :: takeBalanced sc ec (k - 1) rest
  else c :: takeBalanced sc ec k rest

/-- clean_json_response (generator.py lines 19-62) on character lists. -/
def clean_json_response (l : List Char) : List Char :=
  let t := stripFences l
  match findBracketSuffix t with
  | none => t
  | some (c, rest) => takeBalanced c (closeFor c) 0 (c :: rest)

/-- Signed bracket depth of a text: occurrences of the opener minus
occurrences of the closer. -/
def bracketDepth (sc ec : Char) (l : List Char) : Int :=
  (l.countP (fun c => decide (c = sc)) : Int) -
    (l.countP (fun c => decide (c = ec)) : Int)

/-- Contribution of one character to the running bracket depth. -/
def bracketDelta (sc ec c : Char) : Int :=
  if c = sc then 1 else if c = ec then -1 else 0

/-- Least length n of a prefix at which a running depth that starts at k
has returned to zero (n ranges over 1..len; none when the depth never
hits zero). -/
def firstZeroIdx (sc ec : Char) (k : Int) (l : List Char) : Option Nat :=
  (List.range (l.length + 1)).find?
    (fun n => decide (0 < n) && decide (k + bracketDepth sc ec (l.take n) = 0))

/-- Declarative description of the extraction, following the spec words:
after stripping code fences, the result is the shortest nonempty prefix
of the text starting at the first opening bracket in which the opener and
its matching closer occur equally often (the first balanced bracketed
value); if no prefix balances, the whole tail is kept, and if there is no
opening bracket the fence-stripped text is returned unchanged. -/
def clean_json_spec (l : List Char) : List Char :=
  let t := stripFences l
  match findBracketSuffix t with
  | none => t
  | some (c, rest) =>
    match firstZeroIdx c (closeFor c) 0 (c :: rest) with
    | some n => (c :: rest).take n
    | none => c :: rest

/-- Index (length of the taken prefix) at which the bracket-counting loop
stops, mirroring takeBalanced; used to relate the loop to the least-index
description. -/
def leastE (sc ec : Char) : Int → List Char → Option Nat
| _, [] => none
| k, c :: rest =>
  if c = sc then (leastE sc ec (k + 1) rest).map (· + 1)
  else if c = ec then
    if k - 1 = 0 then some 1 else (leastE sc ec (k - 1) rest).map (· + 1)
  else (leastE sc ec k rest).map (· + 1)

/-- Session with nothing loaded and nothing answered, as initialised by
app.py lines 111-128. -/
def emptySession : SessionState :=
  { quizzes := []
    quiz_answers := []
    wrong_answers := []
    current_quiz_stage := 0
    feedback := none }

/-- Concrete well-formed multiple_choice question used by witnesses:
options A-D, correct index 2. -/
def mcQ : Question :=
  { id := 1
    qtype := some "multiple_choice"
    question := "sample"
    options := ["A", "B", "C", "D"]
    answer := some (AnswerVal.ofInt 2)
    source_slide := some 1
    explanation := "" }

/-- Concrete short_answer question with correct text "paris". -/
def saQ : Question :=
  { id := 1
    qtype := some "short_answer"
    question := "capital of France"
    options := []
    answer := some (AnswerVal.ofStr "paris")
    source_slide := some 1
    explanation := "" }

/-- Concrete fill_blank question: the quiz tab renders no input for it. -/
def fbQ : Question :=
  { id := 1
    qtype := some "fill_blank"
    question := "capital of France"
    options := []
    answer := some (AnswerVal.ofStr "paris")
    source_slide := some 1
    explanation := "" }

/-- Concrete multiple_choice question whose answer field is the integer
-1, outside [0, 4). -/
def negQ : Question :=
  { id := 1
    qtype := some "multiple_choice"
    question := "sample"
    options := ["A", "B", "C", "D"]
    answer := some (AnswerVal.ofInt (-1))
    source_slide := some 1
    explanation := "" }

/-- Concrete multiple_choice question whose answer field is the integer
7, at or beyond the length 4 of its options. -/
def bigQ : Question :=
  { id := 1
    qtype := some "multiple_choice"
    question := "sample"
    options := ["A", "B", "C", "D"]
    answer := some (AnswerVal.ofInt 7)
    source_slide := some 1
    explanation := "" }

/-- Session in which question id 1 has already been answered with index
0 and the matching wrong-answer entry is on the ledger. -/
def answeredSession : SessionState :=
  { quizzes := []
    quiz_answers := [(1, Ans.idx 0)]
    wrong_answers := [⟨mcQ, "A", "C"⟩]
    current_quiz_stage := 0
    feedback := none }

theorem pyListGet_natCast (l : List String) (a : Nat) (h : a < l.length) :
    pyListGet l (a : Int) = some (l.getD a "") := by
  unfold pyListGet
  rw [if_pos (Int.natCast_nonneg a), Int.toNat_ofNat,
    List.getD_eq_getElem?_getD, List.getElem?_eq_getElem h]
  simp

theorem assignQuestionIds_ids (n : Nat) (qs : List Question) :
    (assignQuestionIds n qs).map (fun q => q.id) = List.range' n qs.length := by
  induction qs generalizing n with
  | nil => rfl
  | cons q qs ih => simp [assignQuestionIds, ih, List.range'_succ]

theorem assignStageIds_ids (n : Nat) (ss : List Stage) :
    questionIds (assignStageIds n ss) = List.range' n (totalQuestions ss) := by
  induction ss generalizing n with
  | nil => rfl
  | cons s ss ih =>
    have h1 := assignQuestionIds_ids n s.questions
    have h2 := ih (n + s.questions.length)
    have h3 := List.range'_append n s.questions.length (totalQuestions ss) 1
    rw [one_mul] at h3
    simp only [assignStageIds, questionIds, List.map_cons, List.flatten_cons] at *
    rw [h1, h2, h3]
    simp [totalQuestions, Nat.add_comm]

/-- C4: for every quiz set produced by the quiz generator — the id
re-assignment applied to whatever stages the model emitted, or the fixed
fallback on failure — the question ids collected across all stages in
order are exactly 1, 2, 3, ...: the contiguous range starting at 1, with
no duplicates. -/
theorem C4_contiguous_ids (parsed : Option (List Stage)) :
    questionIds (generate_quizzes_result parsed) =
      List.range' 1 (questionIds (generate_quizzes_result parsed)).length := by
  cases parsed with
  | none => rfl
  | some stages =>
    have h := assignStageIds_ids 1 stages
    simp [generate_quizzes_result, assign_ids, h, List.length_range']

/-- C5: reset clears the answer record, the wrong-answer ledger and the
feedback, puts the stage index back to 0, and leaves the loaded quiz set
untouched, from any prior session state. -/
theorem C5_reset_complete (st : SessionState) :
    (resetSession st).quiz_answers = [] ∧
    (resetSession st).wrong_answers = [] ∧
    (resetSession st).feedback = none ∧
    (resetSession st).current_quiz_stage = 0 ∧
    (resetSession st).quizzes = st.quizzes :=
  ⟨rfl, rfl, rfl, rfl, rfl⟩

/-- C7: when the model call or the JSON parse fails, generate_quizzes
returns the fixed fallback quiz set instead of raising: three stages, the
first containing exactly the one generation-failed question, the other
two empty of questions. -/
theorem C7_generation_failure_fallback :
    generate_quizzes_result none = get_fallback_quizzes ∧
    get_fallback_quizzes.length = 3 ∧
    get_fallback_quizzes.map (fun s => s.questions.length) = [1, 0, 0] ∧
    (get_fallback_quizzes.map (fun s => s.questions.map (fun q => q.question))).flatten
      = ["퀴즈 생성 중 오류가 발생했습니다. 다시 시도해주세요."] :=
  ⟨rfl, rfl, rfl, rfl⟩

/-- C8: the feedback generator on an empty ledger returns the fixed
positive analysis with empty weak areas and recommendations, without
issuing the external model call (the Bool component is false), whatever
the model call would have returned; on any nonempty ledger a transport or
parse failure (modelled by none) is absorbed into the fixed degraded
value with a generic analysis and two generic recommendations. -/
theorem C8_feedback_empty_and_failure (m : Option Feedback) (w : WrongEntry)
    (ws : List WrongEntry) :
    generate_feedback [] m =
      ({ analysis := "모든 문제를 맞추셨습니다! 훌륭합니다."
         weak_areas := []
         recommendations := [] }, false) ∧
    generate_feedback (w :: ws) none =
      ({ analysis := "피드백 생성 중 오류가 발생했습니다."
         weak_areas := []
         recommendations := ["오답 노트를 복습하세요.", "해당 슬라이드를 다시 확인하세요."] },
       true) := by
  constructor
  · rfl
  · simp [generate_feedback]

/-- C3 counterexample: at the last stage (index 2 of the fixed
three-label stage list) the next-stage control is not rendered, so
advancing is a no-op that leaves the index at 2; the session never
reaches the Complete index stageLabels.length = 3 this way, contradicting
the claim that advance at the last stage transitions to Complete. -/
theorem C3_counterexample :
    advanceStage 2 = (NavOutcome.atFinalStage, 2) ∧
    (advanceStage 2).2 ≠ stageLabels.length := by
  constructor
  · decide
  · decide

/-- C3 amended: retreat at stage 0 signals AtFirstStage and leaves the
index at 0; advance moves the index up by one only while it is below
stageLabels.length - 1 = 2, and from any index at or beyond that bound —
in particular from the last stage — it signals AtFinalStage and leaves
the index unchanged, so the Complete index 3 is never entered by
advancing. -/
theorem C3_navigation_bounds (i : Nat) :
    retreatStage 0 = (NavOutcome.atFirstStage, 0) ∧
    (stageLabels.length - 1 ≤ i → advanceStage i = (NavOutcome.atFinalStage, i)) ∧
    (i < stageLabels.length - 1 → advanceStage i = (NavOutcome.moved, i + 1)) := by
  refine ⟨rfl, ?_, ?_⟩
  · intro h
    simp [advanceStage, Nat.not_lt.mpr h]
  · intro h
    simp [advanceStage, h]

/-- C3 witness: the amended navigation theorem applied at the concrete
index 2, the last stage. -/
theorem C3_navigation_bounds_witness :
    retreatStage 0 = (NavOutcome.atFirstStage, 0) ∧
    advanceStage 2 = (NavOutcome.atFinalStage, 2) ∧
    advanceStage 1 = (NavOutcome.moved, 2) := by
  have h2 := C3_navigation_bounds 2
  have h1 := C3_navigation_bounds 1
  exact ⟨h2.1, h2.2.1 (by decide), h1.2.2 (by decide)⟩

/-- C2: once a question id has an entry in the answer record, the quiz
tab renders the disabled result view instead of the input widgets, so a
second submission for that id is rejected (AlreadyAnswered) and the whole
session state — answer record and wrong-answer ledger included — is left
exactly as it was after the first submission. -/
theorem C2_idempotent_reject (q : Question) (i : Nat) (t : String)
    (st : SessionState)
    (hdone : (lookupAnswer st.quiz_answers q.id).isSome = true) :
    (q.options ≠ [] → submitMC q i st = (SubmitOutcome.alreadyAnswered, st)) ∧
    submitSA q t st = (SubmitOutcome.alreadyAnswered, st) := by
  constructor
  · intro h
    simp [submitMC, h, hdone]
  · simp [submitSA, hdone]

/-- C2 witness: in a session where id 1 is already answered, both the
multiple-choice and the short-answer submission paths reject and leave
the state unchanged. -/
theorem C2_idempotent_reject_witness :
    submitMC mcQ 2 answeredSession = (SubmitOutcome.alreadyAnswered, answeredSession) ∧
    submitSA saQ "x" answeredSession = (SubmitOutcome.alreadyAnswered, answeredSession) := by
  have h1 := C2_idempotent_reject mcQ 2 "x" answeredSession (by decide)
  have h2 := C2_idempotent_reject saQ 0 "x" answeredSession (by decide)
  exact ⟨h1.1 (by decide), h2.2⟩

/-- C1: for a multiple-choice question whose correct-answer index is a
valid index of its options, an open (not yet answered) submission of
exactly that index yields Correct and changes nothing but the answer
record, while a submission of any other rendered index yields Incorrect
and appends exactly one wrong-answer entry whose correct_answer is the
option text at the correct-answer index. -/
theorem C1_mc_grading (q : Question) (i a : Nat) (st : SessionState)
    (htype : qTypeOf q = "multiple_choice")
    (hans : q.answer = some (AnswerVal.ofInt (a : Int)))
    (ha : a < q.options.length)
    (hi : i < q.options.length)
    (hopen : lookupAnswer st.quiz_answers q.id = none) :
    (i = a →
      submitMC q i st = (SubmitOutcome.correct,
        { st with quiz_answers := st.quiz_answers ++ [(q.id, Ans.idx i)] })) ∧
    (i ≠ a →
      (submitMC q i st).1 = SubmitOutcome.incorrect ∧
      (submitMC q i st).2.quiz_answers = st.quiz_answers ++ [(q.id, Ans.idx i)] ∧
      (submitMC q i st).2.wrong_answers =
        st.wrong_answers ++ [⟨q, q.options.getD i "", q.options.getD a ""⟩]) := by
  have hopts : ¬ q.options = [] := by
    intro h
    rw [h] at ha
    simp at ha
  constructor
  · intro h
    subst h
    simp [submitMC, hopts, hopen, hans]
  · intro h
    have h' : ¬ a = i := fun hc => h hc.symm
    simp [submitMC, hopts, hopen, hans, mcIndexVal, h',
      pyListGet_natCast q.options a ha]

/-- C1 witness: on the concrete question with options A-D and correct
index 2, submitting 0 is Incorrect with the single ledger entry (A, C),
and submitting 2 is Correct with an untouched ledger. -/
theorem C1_mc_grading_witness :
    (submitMC mcQ 0 emptySession).1 = SubmitOutcome.incorrect ∧
    (submitMC mcQ 0 emptySession).2.wrong_answers = [⟨mcQ, "A", "C"⟩] ∧
    submitMC mcQ 2 emptySession = (SubmitOutcome.correct,
      { emptySession with quiz_answers := [(1, Ans.idx 2)] }) := by
  have h0 := C1_mc_grading mcQ 0 2 emptySession rfl (by decide) (by decide) (by decide) rfl
  have h2 := C1_mc_grading mcQ 2 2 emptySession rfl (by decide) (by decide) (by decide) rfl
  refine ⟨(h0.2 (by decide)).1, ?_, ?_⟩
  · have hw := (h0.2 (by decide)).2.2
    simpa using hw
  · simpa using h2.1 rfl

/-- C6 counterexample: the quiz tab dispatch handles only the
multiple_choice and short_answer types, so a fill_blank question renders
no input widget at all; in particular submitting " Paris " against the
fill_blank question with correct text "paris" is impossible (none) and is
never graded Correct, even though the two texts are equal after trimming
and lowercasing — refuting the claim for fill_blank questions. -/
theorem C6_counterexample :
    submitText fbQ " Paris " emptySession = none ∧
    qTypeOf fbQ = "fill_blank" ∧
    normText " Paris " = normText "paris" := by
  refine ⟨rfl, rfl, by decide⟩

/-- C6 amended: for a question the quiz tab grades as text — type
short_answer (questions with no type key also default to short_answer) —
an open submission is Correct exactly when the submitted text equals the
correct text after whitespace-stripping and lowercasing on both sides,
and an Incorrect grading appends exactly one ledger entry carrying the
correct text; fill_blank and essay questions get no text input at all. -/
theorem C6_sa_grading (q : Question) (t c : String) (st : SessionState)
    (htype : qTypeOf q = "short_answer")
    (hans : saCorrectText q.answer = some c)
    (hopen : lookupAnswer st.quiz_answers q.id = none) :
    (normText t = normText c →
      submitText q t st = some (SubmitOutcome.correct,
        { st with quiz_answers := st.quiz_answers ++ [(q.id, Ans.txt t)] })) ∧
    (normText t ≠ normText c →
      submitText q t st = some (SubmitOutcome.incorrect,
        { st with
            quiz_answers := st.quiz_answers ++ [(q.id, Ans.txt t)]
            wrong_answers := st.wrong_answers ++ [⟨q, t, c⟩] })) := by
  constructor
  · intro h
    simp [submitText, submitSA, htype, hopen, hans, h]
  · intro h
    simp [submitText, submitSA, htype, hopen, hans, h]

/-- C6 witness: submitting " Paris " against correct text "paris" on a
concrete short_answer question yields Correct. -/
theorem C6_sa_grading_witness :
    submitText saQ " Paris " emptySession = some (SubmitOutcome.correct,
      { emptySession with quiz_answers := [(1, Ans.txt " Paris ")] }) := by
  have h := C6_sa_grading saQ " Paris " "paris" emptySession rfl rfl rfl
  simpa using h.1 (by decide)

/-- C10 counterexample: the answer field -1 lies outside
[0, number of options) = [0, 4), yet an incorrect submission does not
raise: Python's negative indexing resolves options[-1] to the last
option, so the submission is graded Incorrect and a ledger entry with
correct_answer "D" is appended — refuting the claim that every integer
outside [0, len) raises an index error. -/
theorem C10_counterexample :
    (submitMC negQ 0 emptySession).1 = SubmitOutcome.incorrect ∧
    (submitMC negQ 0 emptySession).2.wrong_answers = [⟨negQ, "A", "D"⟩] ∧
    negQ.answer = some (AnswerVal.ofInt (-1)) ∧
    negQ.options.length = 4 := by
  refine ⟨by decide, by decide, rfl, rfl⟩

/-- C10 amended: the ledger entry's correct answer is computed by Python
indexing options[q.get("answer", 0)] with no bounds check; on an
incorrect submission, an integer answer at or beyond either end of the
options (len ≤ a, or a + len < 0) raises an uncaught IndexError after the
answer record was already mutated and appends no ledger entry, while a
negative in-range answer (-len ≤ a < 0) resolves to the option at index
a + len and appends one ledger entry as usual. -/
theorem C10_unchecked_indexing (q : Question) (i : Nat) (a : Int)
    (st : SessionState)
    (hans : q.answer = some (AnswerVal.ofInt a))
    (hopts : q.options ≠ [])
    (hopen : lookupAnswer st.quiz_answers q.id = none)
    (hne : (i : Int) ≠ a) :
    ((q.options.length : Int) ≤ a ∨ a + q.options.length < 0 →
      (submitMC q i st).1 = SubmitOutcome.indexError ∧
      (submitMC q i st).2.wrong_answers = st.wrong_answers ∧
      (submitMC q i st).2.quiz_answers = st.quiz_answers ++ [(q.id, Ans.idx i)]) ∧
    (a < 0 → 0 ≤ a + q.options.length →
      (submitMC q i st).1 = SubmitOutcome.incorrect ∧
      (submitMC q i st).2.wrong_answers = st.wrong_answers ++
        [⟨q, q.options.getD i "", q.options.getD (a + q.options.length).toNat ""⟩]) := by
  have hcmp : ¬ a = (i : Int) := fun hc => hne hc.symm
  constructor
  · intro hout
    have hget : pyListGet q.options a = none := by
      unfold pyListGet
      rcases hout with hbig | hneg
      · rw [if_pos (le_trans (Int.natCast_nonneg _) hbig)]
        apply List.getElem?_eq_none
        omega
      · rw [if_neg (by omega), if_neg (by omega)]
    simp [submitMC, hopts, hopen, hcmp, hans, mcIndexVal, hget]
  · intro hneg hin
    have hlt : (a + q.options.length).toNat < q.options.length := by omega
    have hget : pyListGet q.options a = some (q.options.getD (a + q.options.length).toNat "") := by
      unfold pyListGet
      rw [if_neg (by omega), if_pos hin, List.getD_eq_getElem?_getD,
        List.getElem?_eq_getElem hlt]
      simp
    simp [submitMC, hopts, hopen, hcmp, hans, mcIndexVal, hget]

/-- C10 witness: the amended theorem at the concrete questions with
answer 7 (uncaught IndexError, ledger untouched, answer record already
mutated) and answer -1 (graded Incorrect via negative indexing). -/
theorem C10_unchecked_indexing_witness :
    (submitMC bigQ 0 emptySession).1 = SubmitOutcome.indexError ∧
    (submitMC bigQ 0 emptySession).2.wrong_answers = [] ∧
    (submitMC bigQ 0 emptySession).2.quiz_answers = [(1, Ans.idx 0)] ∧
    (submitMC negQ 0 emptySession).1 = SubmitOutcome.incorrect := by
  have h1 := C10_unchecked_indexing bigQ 0 7 emptySession (by decide) (by decide) rfl (by decide)
  have h2 := C10_unchecked_indexing negQ 0 (-1) emptySession (by decide) (by decide) rfl (by decide)
  obtain ⟨e1, e2, e3⟩ := h1.1 (by decide)
  exact ⟨e1, by simpa using e2, by simpa using e3, (h2.2 (by decide) (by decide)).1⟩

theorem bracketDepth_cons (sc ec : Char) (hne : sc ≠ ec) (c : Char) (l : List Char) :
    bracketDepth sc ec (c :: l) = bracketDelta sc ec c + bracketDepth sc ec l := by
  have hne' : ec ≠ sc := fun h => hne h.symm
  simp only [bracketDepth, bracketDelta, List.countP_cons]
  by_cases h1 : c = sc
  · have h2 : ¬ c = ec := fun h => hne (h1.symm.trans h)
    simp [h1, h2, hne, hne']
    ring
  · by_cases h2 : c = ec
    · simp [h1, h2, hne, hne']
      ring
    · simp [h1, h2]

theorem firstZeroIdx_cons (sc ec : Char) (hne : sc ≠ ec) (c : Char) (l : List Char)
    (k : Int) (h : ¬ k + bracketDelta sc ec c = 0) :
    firstZeroIdx sc ec k (c :: l) =
      (firstZeroIdx sc ec (k + bracketDelta sc ec c) l).map (· + 1) := by
  unfold firstZeroIdx
  rw [show (c :: l).length + 1 = (l.length + 1) + 1 by simp]
  rw [List.range_succ_eq_map, List.find?_cons_of_neg _ (by simp), List.find?_map]
  have hcomp :
      ((fun n => decide (0 < n) && decide (k + bracketDepth sc ec ((c :: l).take n) = 0)) ∘ Nat.succ)
        = (fun n => decide (0 < n) &&
            decide (k + bracketDelta sc ec c + bracketDepth sc ec (l.take n) = 0)) := by
    funext n
    simp only [Function.comp_apply, List.take_succ_cons, bracketDepth_cons sc ec hne]
    by_cases hn : 0 < n
    · have e1 : decide (0 < Nat.succ n) = true := by simp
      have e2 : decide (0 < n) = true := by simpa using hn
      rw [e1, e2, Bool.true_and, Bool.true_and, decide_eq_decide]
      omega
    · have hn0 : n = 0 := by omega
      subst hn0
      simp only [List.take_zero]
      have : ¬ (k + (bracketDelta sc ec c + bracketDepth sc ec []) = 0) := by
        simpa [bracketDepth] using h
      simp [this]
  rw [hcomp]

theorem firstZeroIdx_break (sc ec : Char) (hne : sc ≠ ec) (c : Char) (l : List Char)
    (k : Int) (h : k + bracketDelta sc ec c = 0) :
    firstZeroIdx sc ec k (c :: l) = some 1 := by
  unfold firstZeroIdx
  rw [show (c :: l).length + 1 = (l.length + 1) + 1 by simp]
  rw [List.range_succ_eq_map, List.find?_cons_of_neg _ (by simp)]
  rw [List.range_succ_eq_map, List.map_cons]
  rw [List.find?_cons_of_pos]
  have hd : k + bracketDepth sc ec [c] = 0 := by
    rw [bracketDepth_cons sc ec hne]
    simpa [bracketDepth] using h
  simp [hd]

theorem firstZeroIdx_nil (sc ec : Char) (k : Int) : firstZeroIdx sc ec k [] = none := by
  unfold firstZeroIdx
  rw [show ([] : List Char).length + 1 = 0 + 1 by simp, List.range_succ_eq_map]
  simp

theorem takeBalanced_eq_leastE (sc ec : Char) (l : List Char) :
    ∀ k : Int, takeBalanced sc ec k l =
      match leastE sc ec k l with
      | some n => l.take n
      | none => l := by
  induction l with
  | nil => intro k; rfl
  | cons c rest ih =>
    intro k
    by_cases hsc : c = sc
    · simp only [takeBalanced, leastE, if_pos hsc]
      rw [ih (k + 1)]
      cases leastE sc ec (k + 1) rest with
      | none => simp
      | some n => simp [List.take_succ_cons]
    · by_cases hec : c = ec
      · by_cases hk : k - 1 = 0
        · simp only [takeBalanced, leastE, if_neg hsc, if_pos hec, if_pos hk]
          rfl
        · simp only [takeBalanced, leastE, if_neg hsc, if_pos hec, if_neg hk]
          rw [ih (k - 1)]
          cases leastE sc ec (k - 1) rest with
          | none => simp
          | some n => simp [List.take_succ_cons]
      · simp only [takeBalanced, leastE, if_neg hsc, if_neg hec]
        rw [ih k]
        cases leastE sc ec k rest with
        | none => simp
        | some n => simp [List.take_succ_cons]

theorem leastE_eq_firstZeroIdx (sc ec : Char) (hne : sc ≠ ec) (l : List Char) :
    ∀ k : Int, 1 ≤ k → leastE sc ec k l = firstZeroIdx sc ec k l := by
  induction l with
  | nil =>
    intro k hk
    rw [firstZeroIdx_nil]
    rfl
  | cons c rest ih =>
    intro k hk
    by_cases hsc : c = sc
    · have hd : bracketDelta sc ec c = 1 := by simp [bracketDelta, hsc]
      rw [firstZeroIdx_cons sc ec hne c rest k (by rw [hd]; omega), hd]
      simp only [leastE, if_pos hsc]
      rw [ih (k + 1) (by omega)]
    · by_cases hec : c = ec
      · have hne' : ¬ ec = sc := fun h => hne h.symm
        have hd : bracketDelta sc ec c = -1 := by simp [bracketDelta, hsc, hec, hne']
        by_cases hk1 : k - 1 = 0
        · rw [firstZeroIdx_break sc ec hne c rest k (by rw [hd]; omega)]
          simp only [leastE, if_neg hsc, if_pos hec, if_pos hk1]
        · rw [firstZeroIdx_cons sc ec hne c rest k (by rw [hd]; omega), hd]
          simp only [leastE, if_neg hsc, if_pos hec, if_neg hk1]
          rw [ih (k - 1) (by omega)]
          rw [show k + -1 = k - 1 by ring]
      · have hd : bracketDelta sc ec c = 0 := by simp [bracketDelta, hsc, hec]
        rw [firstZeroIdx_cons sc ec hne c rest k (by rw [hd]; omega), hd]
        simp only [leastE, if_neg hsc, if_neg hec]
        rw [ih k hk]
        rw [show k + 0 = k by ring]

theorem findBracketSuffix_isOpen (l : List Char) :
    ∀ c rest, findBracketSuffix l = some (c, rest) → isOpenBracket c = true := by
  induction l with
  | nil =>
    intro c rest h
    simp [findBracketSuffix] at h
  | cons a as ih =>
    intro c rest h
    by_cases ha : isOpenBracket a
    · rw [findBracketSuffix, if_pos ha] at h
      obtain ⟨rfl, rfl⟩ := Prod.mk.injEq .. ▸ Option.some.inj h
      exact ha
    · rw [findBracketSuffix, if_neg ha] at h
      exact ih c rest h

/-- C9: clean_json_response extracts the first balanced bracketed JSON
value, exactly as described: it strips the code-fence markers, locates
the first opening brace or bracket, and returns the shortest nonempty
prefix from there in which the opener and its matching closer occur
equally often (prose before the bracket and after the balanced value is
discarded; if the count never balances the whole tail is kept), and when
the fence-stripped text contains no opening bracket it is returned
unchanged — the bracket-counting implementation coincides with this
declarative description on every input. -/
theorem C9_clean_json (l : List Char) :
    clean_json_response l = clean_json_spec l := by
  cases hf : findBracketSuffix (stripFences l) with
  | none => simp [clean_json_response, clean_json_spec, hf]
  | some p =>
    obtain ⟨c, rest⟩ := p
    have hopen := findBracketSuffix_isOpen _ _ _ hf
    simp only [clean_json_response, clean_json_spec, hf]
    have hcc : c = '{' ∨ c = '[' := by
      simpa [isOpenBracket] using hopen
    have hne : c ≠ closeFor c := by
      rcases hcc with h | h <;> subst h <;> decide
    rw [takeBalanced_eq_leastE]
    have e1 : leastE c (closeFor c) 0 (c :: rest) =
        (leastE c (closeFor c) 1 rest).map (· + 1) := by
      simp [leastE]
    have hd : bracketDelta c (closeFor c) c = 1 := by simp [bracketDelta]
    have e2 : firstZeroIdx c (closeFor c) 0 (c :: rest) =
        (firstZeroIdx c (closeFor c) 1 rest).map (· + 1) := by
      have h0 := firstZeroIdx_cons c (closeFor c) hne c rest 0 (by rw [hd]; omega)
      rw [hd] at h0
      simpa using h0
    rw [e1, e2, leastE_eq_firstZeroIdx c (closeFor c) hne rest 1 (le_refl 1)]

end PPT
